import Mathlib

/-
Verification of the TidyBlocks expression engine (src/libs/expr.js).

The JavaScript classes are embedded shallowly:
  * JS numbers are modelled by `JSNum`: exact rationals for finite doubles
    plus the special values Infinity, -Infinity and NaN.  Finite overflow to
    Infinity is not modelled (the rational carrier is unbounded).
  * the runtime values an expression can produce are `Value`
    (the MISSING sentinel, numbers, strings, booleans, Date objects);
    Date objects are identified with their epoch-millisecond instant.
  * `run` throws by returning `Except.error` with the thrown message.
  * the random-variate classes call the host's random generator; `run`
    therefore takes a `RandomSource` oracle supplying the samples.
-/

namespace TidyBlocks

/-- JS numbers: an exact rational for a finite double, plus the IEEE
special values.  Overflow of finite arithmetic to Infinity is not
modelled. -/
inductive JSNum where
  | fin (q : ℚ)
  | posInf
  | negInf
  | nan
deriving DecidableEq, Repr

/-- Models the host's isFinite test on a number. -/
def JSNum.isFiniteNum : JSNum → Bool
  | .fin _ => true
  | _ => false

/-- Models IEEE equality (the JS == and === on two numbers): NaN is not
equal to anything, including itself. -/
def jsNumEq : JSNum → JSNum → Bool
  | .nan, _ => false
  | _, .nan => false
  | a, b => decide (a = b)

/-- Models the JS < on two numbers: false whenever either side is NaN. -/
def jsNumLt : JSNum → JSNum → Bool
  | .nan, _ => false
  | _, .nan => false
  | .negInf, .negInf => false
  | .negInf, _ => true
  | _, .negInf => false
  | .posInf, _ => false
  | .fin _, .posInf => true
  | .fin a, .fin b => decide (a < b)

/-- Models the JS <= on two numbers: false whenever either side is NaN. -/
def jsNumLe : JSNum → JSNum → Bool
  | .nan, _ => false
  | _, .nan => false
  | .negInf, _ => true
  | .posInf, .posInf => true
  | .posInf, _ => false
  | .fin _, .posInf => true
  | .fin _, .negInf => false
  | .fin a, .fin b => decide (a ≤ b)

/-- Models JS unary minus on a number. -/
def jsNeg : JSNum → JSNum
  | .fin q => .fin (-q)
  | .posInf => .negInf
  | .negInf => .posInf
  | .nan => .nan

/-- Models JS + on two numbers. -/
def jsAdd : JSNum → JSNum → JSNum
  | .nan, _ => .nan
  | _, .nan => .nan
  | .posInf, .negInf => .nan
  | .negInf, .posInf => .nan
  | .posInf, _ => .posInf
  | _, .posInf => .posInf
  | .negInf, _ => .negInf
  | _, .negInf => .negInf
  | .fin a, .fin b => .fin (a + b)

/-- Models JS - on two numbers. -/
def jsSub (a b : JSNum) : JSNum := jsAdd a (jsNeg b)

/-- Models JS * on two numbers (negative zero is not modelled). -/
def jsMul : JSNum → JSNum → JSNum
  | .nan, _ => .nan
  | _, .nan => .nan
  | .fin a, .posInf => if a = 0 then .nan else if 0 < a then .posInf else .negInf
  | .fin a, .negInf => if a = 0 then .nan else if 0 < a then .negInf else .posInf
  | .posInf, .fin b => if b = 0 then .nan else if 0 < b then .posInf else .negInf
  | .negInf, .fin b => if b = 0 then .nan else if 0 < b then .negInf else .posInf
  | .posInf, .posInf => .posInf
  | .posInf, .negInf => .negInf
  | .negInf, .posInf => .negInf
  | .negInf, .negInf => .posInf
  | .fin a, .fin b => .fin (a * b)

/-- Models JS / on two numbers (negative zero is not modelled; division of
a nonzero finite value by zero yields a signed infinity, 0 / 0 yields
NaN). -/
def jsDiv : JSNum → JSNum → JSNum
  | .nan, _ => .nan
  | _, .nan => .nan
  | .posInf, .posInf => .nan
  | .posInf, .negInf => .nan
  | .negInf, .posInf => .nan
  | .negInf, .negInf => .nan
  | .posInf, .fin b => if 0 ≤ b then .posInf else .negInf
  | .negInf, .fin b => if 0 ≤ b then .negInf else .posInf
  | .fin _, .posInf => .fin 0
  | .fin _, .negInf => .fin 0
  | .fin a, .fin b =>
      if b = 0 then
        (if a = 0 then .nan else if 0 < a then .posInf else .negInf)
      else .fin (a / b)

/-- Truncation of a rational toward zero, as JS % requires. -/
def ratTrunc (q : ℚ) : ℤ := if 0 ≤ q then ⌊q⌋ else ⌈q⌉

/-- Models JS % on two numbers (the remainder has the dividend's sign). -/
def jsMod : JSNum → JSNum → JSNum
  | .nan, _ => .nan
  | _, .nan => .nan
  | .posInf, _ => .nan
  | .negInf, _ => .nan
  | .fin a, .posInf => .fin a
  | .fin a, .negInf => .fin a
  | .fin a, .fin b =>
      if b = 0 then .nan else .fin (a - b * (ratTrunc (a / b) : ℚ))

/-- Models JS ** on two numbers.  Integer exponents are computed exactly;
a positive base raised to a non-integer exponent has an irrational value
that lies outside the rational carrier of this model, and is collapsed to
NaN here (the source never feeds that case to the properties proved
below). -/
def jsPow (a b : JSNum) : JSNum :=
  match b with
  | .nan => .nan
  | .fin be =>
    if be = 0 then .fin 1
    else
      match a with
      | .nan => .nan
      | .posInf => if 0 < be then .posInf else .fin 0
      | .negInf =>
          if 0 < be then
            (if be.den = 1 ∧ be.num % 2 ≠ 0 then .negInf else .posInf)
          else .fin 0
      | .fin ae =>
          if be.den = 1 then
            (if 0 ≤ be.num then .fin (ae ^ be.num.toNat)
             else if ae = 0 then .posInf
             else .fin (ae ^ be.num))
          else
            if ae < 0 then .nan
            else if ae = 0 then (if 0 < be then .fin 0 else .posInf)
            else .nan
  | .posInf =>
      match a with
      | .nan => .nan
      | .fin ae => if ae = 1 ∨ ae = -1 then .nan
                   else if 1 < ae ∨ ae < -1 then .posInf else .fin 0
      | _ => .posInf
  | .negInf =>
      match a with
      | .nan => .nan
      | .fin ae => if ae = 1 ∨ ae = -1 then .nan
                   else if 1 < ae ∨ ae < -1 then .fin 0 else .posInf
      | _ => .fin 0

/-- Runtime values of the expression engine.  `missing` is the MISSING
sentinel (the host's undefined); `datetime` is a valid Date object,
identified with its epoch-millisecond instant. -/
inductive Value where
  | missing
  | number (n : JSNum)
  | text (s : String)
  | logical (b : Bool)
  | datetime (ms : ℤ)
deriving DecidableEq, Repr

/-- Models JS truthiness: undefined (MISSING), false, 0, NaN and the empty
string are falsy; every other value, including any Date object, is
truthy. -/
def truthy : Value → Bool
  | .missing => false
  | .number (.fin q) => decide (q ≠ 0)
  | .number .nan => false
  | .number _ => true
  | .text s => decide (s ≠ "")
  | .logical b => b
  | .datetime _ => true

/-- Models the JS typeof operator on the values of this engine (Date
objects are objects). -/
def typeName : Value → String
  | .missing => "undefined"
  | .number _ => "number"
  | .text _ => "string"
  | .logical _ => "boolean"
  | .datetime _ => "object"

/-- Modelled from the spec: the value-equality helper of the missing
util module (util.equal).  Equality uses value equality; dates compare by
instant, not object identity; MISSING equals MISSING; IEEE equality on
numbers (so NaN equals nothing). -/
def utilEqual (a b : Value) : Bool :=
  match a, b with
  | .number x, .number y => jsNumEq x y
  | a, b => decide (a = b)

/-- Modelled from the spec: util.checkNumber accepts MISSING or a number
and rejects (throws on) every other value, since evaluation must
propagate MISSING through arithmetic but fail on ill-typed operands. -/
def isNumOrMissing : Value → Bool
  | .missing => true
  | .number _ => true
  | _ => false

/-- Modelled from the spec: util.checkTypeEqual passes when either value
is MISSING (the missing-check precedes the type requirement) or when the
two values have the same runtime type, and throws otherwise. -/
def typeEqualOk (a b : Value) : Bool :=
  decide (a = .missing) || decide (b = .missing) || decide (typeName a = typeName b)

/-- A row: the host's row object, a mapping from column names to values. -/
abbrev Row := List (String × Value)

/-- Oracle supplying the samples drawn by the random-variate nodes
(random.exponential, random.normal, random.uniform of the host
library). -/
structure RandomSource where
  exponential : JSNum → JSNum
  normal : JSNum → JSNum → JSNum
  uniform : JSNum → JSNum → JSNum

/-- A fixed sampling oracle used to instantiate witnesses. -/
def dfltRnd : RandomSource :=
  { exponential := fun _ => .fin 0
    normal := fun _ _ => .fin 0
    uniform := fun _ _ => .fin 0 }

/-- Proleptic-Gregorian leap-year test. -/
def isLeapYear (y : ℤ) : Bool :=
  (y % 4 = 0 && y % 100 ≠ 0) || y % 400 = 0

/-- Civil date (year, month 1-12, day 1-31) of a count of days since
1970-01-01, by the standard days-to-civil algorithm on a 400-year era.
Models the host Date's calendar getters, with the host's local timezone
idealized as UTC. -/
def civilFromDays (days : ℤ) : ℤ × ℤ × ℤ :=
  let z := days + 719468
  let era := Int.ediv z 146097
  let doe := z - era * 146097
  let yoe := Int.ediv (doe - Int.ediv doe 1460 + Int.ediv doe 36524 - Int.ediv doe 146096) 365
  let y := yoe + era * 400
  let doy := doe - (365 * yoe + Int.ediv yoe 4 - Int.ediv yoe 100)
  let mp := Int.ediv (5 * doy + 2) 153
  let d := doy - Int.ediv (153 * mp + 2) 5 + 1
  let m := if mp < 10 then mp + 3 else mp - 9
  (if m ≤ 2 then y + 1 else y, m, d)

/-- Number of whole days since the epoch of an epoch-millisecond instant. -/
def daysOfMs (ms : ℤ) : ℤ := Int.ediv ms 86400000

/-- Models Date.prototype.getFullYear. -/
def getFullYear (ms : ℤ) : ℤ := (civilFromDays (daysOfMs ms)).1

/-- Extra February day of a leap year, as an integer offset. -/
def leapOffset (leap : Bool) : ℤ := if leap then 1 else 0

/-- Cumulative day-of-year totals at which each month after January
begins (0-based days). -/
def monthEnds (leap : Bool) : List ℤ :=
  [31, 59 + leapOffset leap, 90 + leapOffset leap, 120 + leapOffset leap,
   151 + leapOffset leap, 181 + leapOffset leap, 212 + leapOffset leap,
   243 + leapOffset leap, 273 + leapOffset leap, 304 + leapOffset leap,
   334 + leapOffset leap]

/-- The 0-based month containing a 0-based day of the year: the number of
months of the Gregorian calendar that have fully elapsed by that day. -/
def monthFromDayOfYear (leap : Bool) (d : ℤ) : ℤ :=
  (((monthEnds leap).filter (fun t => decide (t ≤ d))).length : ℤ)

/-- Models Date.prototype.getDate: 1-based day of month. -/
def getDate (ms : ℤ) : ℤ := (civilFromDays (daysOfMs ms)).2.2

/-- Models Date.prototype.getDay: 0 = Sunday through 6 = Saturday
(1970-01-01 was a Thursday). -/
def getDay (ms : ℤ) : ℤ := Int.emod (daysOfMs ms + 4) 7

/-- Models Date.prototype.getHours. -/
def getHours (ms : ℤ) : ℤ := Int.ediv (Int.emod ms 86400000) 3600000

/-- Models Date.prototype.getMinutes. -/
def getMinutes (ms : ℤ) : ℤ := Int.ediv (Int.emod ms 3600000) 60000

/-- Models Date.prototype.getSeconds. -/
def getSeconds (ms : ℤ) : ℤ := Int.ediv (Int.emod ms 60000) 1000

/-- Days since 1970-01-01 of a civil date, the inverse direction of
`civilFromDays`. -/
def daysFromCivil (y m d : ℤ) : ℤ :=
  let y2 := if m ≤ 2 then y - 1 else y
  let era := Int.ediv y2 400
  let yoe := y2 - era * 400
  let mp := Int.emod (m + 9) 12
  let doy := Int.ediv (153 * mp + 2) 5 + d - 1
  let doe := yoe * 365 + Int.ediv yoe 4 - Int.ediv yoe 100 + doy
  era * 146097 + doe - 719468

/-- Models Date.prototype.getMonth: 0-based month (0 = January),
computed as the month containing the instant's day of its civil year. -/
def getMonth (ms : ℤ) : ℤ :=
  monthFromDayOfYear (isLeapYear (getFullYear ms))
    (daysOfMs ms - daysFromCivil (getFullYear ms) 1 1)

/-- Interpret a list of characters as a nonnegative decimal integer, if it
is a nonempty string of digits. -/
def digitsToNat : List Char → Option ℕ
  | [] => none
  | cs =>
    if cs.all (fun c => c.isDigit) then
      some (cs.foldl (fun acc c => 10 * acc + (c.toNat - 48)) 0)
    else none

/-- Split a character list on the dash separator. -/
def splitOnDash : List Char → List (List Char)
  | [] => [[]]
  | c :: cs =>
      if c = '-' then [] :: splitOnDash cs
      else
        match splitOnDash cs with
        | [] => [[c]]
        | p :: ps => (c :: p) :: ps

/-- Models the host's Date.parse for the calendar-date part of the ISO
8601 format (YYYY-MM-DD, parsed as UTC midnight); every other string is
treated as unparsable and produces an Invalid Date (`none`).  In
particular plain words such as "abc" do not parse. -/
def jsDateParse (s : String) : Option ℤ :=
  match (splitOnDash s.toList).map digitsToNat with
  | [some y, some m, some d] =>
      if 1 ≤ m ∧ m ≤ 12 ∧ 1 ≤ d ∧ d ≤ 31 then
        some (86400000 * daysFromCivil (y : ℤ) (m : ℤ) (d : ℤ))
      else none
  | _ => none

/-- Digit run at the front of a character list, with the rest. -/
def takeDigits : List Char → List Char × List Char
  | [] => ([], [])
  | c :: cs =>
      if c.isDigit then
        let (ds, rest) := takeDigits cs
        (c :: ds, rest)
      else ([], c :: cs)

/-- Value of a digit list read as a decimal integer. -/
def digitsVal (cs : List Char) : ℕ :=
  cs.foldl (fun acc c => 10 * acc + (c.toNat - 48)) 0

/-- Models the host's parseFloat on the string after its sign: a decimal
significand with optional fractional part, or the literal "Infinity".
Returns none when no number can be read (parseFloat would return NaN).
Exponent suffixes are not modelled. -/
def parseUnsigned (cs : List Char) : Option JSNum :=
  if cs.take 8 = "Infinity".toList then some .posInf
  else
    let (intDigits, rest) := takeDigits cs
    match rest with
    | '.' :: rest2 =>
        let (fracDigits, _) := takeDigits rest2
        if intDigits = [] ∧ fracDigits = [] then none
        else some (.fin ((digitsVal intDigits : ℚ) +
          (digitsVal fracDigits : ℚ) / ((10 : ℚ) ^ fracDigits.length)))
    | _ =>
        if intDigits = [] then none
        else some (.fin (digitsVal intDigits : ℚ))

/-- Models the host's parseFloat: skip leading whitespace, read an
optional sign and then an unsigned decimal number; none stands for the
NaN result on unparsable text. -/
def jsParseFloat (s : String) : Option JSNum :=
  match s.toList.dropWhile (fun c => c = ' ' ∨ c = '\t' ∨ c = '\n') with
  | '-' :: cs => (parseUnsigned cs).map jsNeg
  | '+' :: cs => parseUnsigned cs
  | cs => parseUnsigned cs

/-- Models the JS Date constructor new Date(value) on an engine value:
a number is an epoch-millisecond count (non-finite values give an Invalid
Date), a string is parsed, a boolean coerces to 0 or 1, and a Date is
copied.  `none` is the Invalid Date result. -/
def newDate : Value → Option ℤ
  | .number (.fin q) => some (ratTrunc q)
  | .number _ => none
  | .text s => jsDateParse s
  | .logical b => some (if b then 1 else 0)
  | .datetime ms => some ms
  | .missing => none

/-- Models the host's number-to-string conversion; the exact decimal
formatting of a double is not modelled further than printing the
rational. -/
def jsNumToString : JSNum → String
  | .nan => "NaN"
  | .posInf => "Infinity"
  | .negInf => "-Infinity"
  | .fin q => toString q

/-- Models the host's Date-to-string conversion abstractly (the exact
human-readable format is irrelevant to the engine; only that it is some
string determined by the instant). -/
def jsDateToString (ms : ℤ) : String := "Date(" ++ toString ms ++ ")"

/-- Models the JS template-literal stringification of a non-missing,
non-string value, as used by ExprToString. -/
def jsToString : Value → String
  | .missing => "undefined"
  | .number n => jsNumToString n
  | .text s => s
  | .logical b => if b then "true" else "false"
  | .datetime ms => jsDateToString ms

/-- Models JS > on two engine values of equal runtime type (booleans
coerce to 0/1, dates compare by instant, NaN comparisons are false). -/
def jsGT : Value → Value → Bool
  | .number a, .number b => jsNumLt b a
  | .text a, .text b => decide (b < a)
  | .logical a, .logical b => a && !b
  | .datetime a, .datetime b => decide (b < a)
  | _, _ => false

/-- Models JS >= on two engine values of equal runtime type. -/
def jsGE : Value → Value → Bool
  | .number a, .number b => jsNumLe b a
  | .text a, .text b => !decide (a < b)
  | .logical a, .logical b => a || !b
  | .datetime a, .datetime b => decide (b ≤ a)
  | _, _ => false

/-- Models JS < on two engine values of equal runtime type. -/
def jsLT : Value → Value → Bool
  | .number a, .number b => jsNumLt a b
  | .text a, .text b => decide (a < b)
  | .logical a, .logical b => !a && b
  | .datetime a, .datetime b => decide (a < b)
  | _, _ => false

/-- Models JS <= on two engine values of equal runtime type. -/
def jsLE : Value → Value → Bool
  | .number a, .number b => jsNumLe a b
  | .text a, .text b => !decide (b < a)
  | .logical a, .logical b => !a || b
  | .datetime a, .datetime b => decide (a ≤ b)
  | _, _ => false

/-- The stored value of an ExprDatetime literal (MISSING or a Date). -/
def litDatetime : Option ℤ → Value
  | none => .missing
  | some ms => .datetime ms

/-- The stored value of an ExprLogical literal (MISSING or a boolean). -/
def litLogical : Option Bool → Value
  | none => .missing
  | some b => .logical b

/-- The stored value of an ExprNumber literal (MISSING or a number). -/
def litNumber : Option JSNum → Value
  | none => .missing
  | some n => .number n

/-- The stored value of an ExprText literal (MISSING or a string). -/
def litText : Option String → Value
  | none => .missing
  | some s => .text s

/-- The expression AST of src/libs/expr.js, one constructor per concrete
class, named as in the Expr lookup table at the bottom of the file.  The
literal constructors carry the value their class's constructor accepts
(MISSING or a value of the right type). -/
inductive Expr where
  | column (name : String)
  | datetime (value : Option ℤ)
  | logical (value : Option Bool)
  | number (value : Option JSNum)
  | text (value : Option String)
  | rownum
  | exponential (rate : JSNum)
  | normal (mean stdDev : JSNum)
  | uniform (low high : JSNum)
  | negate (arg : Expr)
  | not (arg : Expr)
  | isLogical (arg : Expr)
  | isDatetime (arg : Expr)
  | isMissing (arg : Expr)
  | isNumber (arg : Expr)
  | isText (arg : Expr)
  | toLogical (arg : Expr)
  | toDatetime (arg : Expr)
  | toNumber (arg : Expr)
  | toString (arg : Expr)
  | toYear (arg : Expr)
  | toMonth (arg : Expr)
  | toDay (arg : Expr)
  | toWeekday (arg : Expr)
  | toHours (arg : Expr)
  | toMinutes (arg : Expr)
  | toSeconds (arg : Expr)
  | add (left right : Expr)
  | subtract (left right : Expr)
  | multiply (left right : Expr)
  | divide (left right : Expr)
  | remainder (left right : Expr)
  | power (left right : Expr)
  | equal (left right : Expr)
  | notEqual (left right : Expr)
  | greater (left right : Expr)
  | greaterEqual (left right : Expr)
  | less (left right : Expr)
  | lessEqual (left right : Expr)
  | and (left right : Expr)
  | or (left right : Expr)
  | ifElse (left middle right : Expr)

/-- The fixed serialization tag Expr.KIND. -/
def Expr.KIND : String := "@expr"

/-- ExprBase.safeValue: a non-finite number collapses to MISSING. -/
def safeValue (n : JSNum) : Value :=
  if n.isFiniteNum then .number n else .missing

/-- ExprArithmeticBase.arithmetic over the already-computed operand
results: check the left operand is a number or MISSING, then the right,
then propagate MISSING, else apply the operator under safeValue.  The
number checks are util.checkNumber, modelled from the spec. -/
def arithmetic (kind : String) (l r : Except String Value)
    (func : JSNum → JSNum → JSNum) : Except String Value :=
  match l with
  | .error e => .error e
  | .ok lv =>
    match lv with
    | .missing =>
        (match r with
         | .error e => .error e
         | .ok rv =>
           match rv with
           | .missing => .ok .missing
           | .number _ => .ok .missing
           | _ => .error ("Require number for " ++ kind))
    | .number a =>
        (match r with
         | .error e => .error e
         | .ok rv =>
           match rv with
           | .missing => .ok .missing
           | .number b => .ok (safeValue (func a b))
           | _ => .error ("Require number for " ++ kind))
    | _ => .error ("Require number for " ++ kind)

/-- ExprCompareBase.comparison over the already-computed operand results:
run both operands, require equal runtime types unless one is MISSING
(util.checkTypeEqual, modelled from the spec), propagate MISSING, else
apply the comparison. -/
def comparison (kind : String) (l r : Except String Value)
    (func : Value → Value → Bool) : Except String Value :=
  match l with
  | .error e => .error e
  | .ok lv =>
    match r with
    | .error e => .error e
    | .ok rv =>
      if typeEqualOk lv rv then
        (if lv = .missing ∨ rv = .missing then .ok .missing
         else .ok (.logical (func lv rv)))
      else .error ("Require equal types for " ++ kind)

/-- ExprTypecheckBase.typeCheck over the already-computed operand result:
MISSING propagates, otherwise compare the typeof name. -/
def typeCheck (r : Except String Value) (tyName : String) : Except String Value :=
  match r with
  | .error e => .error e
  | .ok v =>
      if v = .missing then .ok .missing
      else .ok (.logical (decide (typeName v = tyName)))

/-- ExprDatetimeBase.dateValue over the already-computed operand result:
MISSING propagates; a non-Date operand is a type error (util.check);
otherwise the field extractor is applied. -/
def dateValue (kind : String) (r : Except String Value)
    (func : ℤ → Value) : Except String Value :=
  match r with
  | .error e => .error e
  | .ok v =>
    match v with
    | .missing => .ok .missing
    | .datetime ms => .ok (func ms)
    | _ => .error ("Require date for " ++ kind)

/-- Row-wise evaluation: the run(row, i) method of every node class.
Thrown checks surface as `Except.error` with the thrown message (the
messages for ExprColumn and ExprNegate interpolate this.name, which no
class defines, so they read "undefined").  The random-variate nodes draw
their sample from the oracle. -/
def Expr.run : Expr → RandomSource → Row → ℕ → Except String Value
  | .column name, _, row, _ =>
      (match List.lookup name row with
       | some v => .ok v
       | none => .error "undefined not in row")
  | .datetime v, _, _, _ => .ok (litDatetime v)
  | .logical v, _, _, _ => .ok (litLogical v)
  | .number v, _, _, _ => .ok (litNumber v)
  | .text v, _, _, _ => .ok (litText v)
  | .rownum, _, _, i => .ok (.number (.fin i))
  | .exponential rate, rnd, _, _ => .ok (.number (rnd.exponential rate))
  | .normal m s, rnd, _, _ => .ok (.number (rnd.normal m s))
  | .uniform lo hi, rnd, _, _ => .ok (.number (rnd.uniform lo hi))
  | .negate a, rnd, row, i =>
      (match a.run rnd row i with
       | .error e => .error e
       | .ok v =>
         match v with
         | .missing => .ok .missing
         | .number n => .ok (safeValue (jsNeg n))
         | _ => .error "Require number for undefined")
  | .not a, rnd, row, i =>
      (match a.run rnd row i with
       | .error e => .error e
       | .ok v =>
         if v = .missing then .ok .missing
         else .ok (.logical (!truthy v)))
  | .isLogical a, rnd, row, i => typeCheck (a.run rnd row i) "boolean"
  | .isDatetime a, rnd, row, i =>
      (match a.run rnd row i with
       | .error e => .error e
       | .ok v =>
         if v = .missing then .ok .missing
         else .ok (.logical (match v with | .datetime _ => true | _ => false)))
  | .isMissing a, rnd, row, i =>
      (match a.run rnd row i with
       | .error e => .error e
       | .ok v => .ok (.logical (decide (v = .missing))))
  | .isNumber a, rnd, row, i => typeCheck (a.run rnd row i) "number"
  | .isText a, rnd, row, i => typeCheck (a.run rnd row i) "string"
  | .toLogical a, rnd, row, i =>
      (match a.run rnd row i with
       | .error e => .error e
       | .ok v =>
         if v = .missing then .ok .missing
         else .ok (.logical (truthy v)))
  | .toDatetime a, rnd, row, i =>
      (match a.run rnd row i with
       | .error e => .error e
       | .ok v =>
         if v = .missing then .ok .missing
         else .ok (match newDate v with
                   | some ms => .datetime ms
                   | none => .missing))
  | .toNumber a, rnd, row, i =>
      (match a.run rnd row i with
       | .error e => .error e
       | .ok v =>
         .ok (match v with
              | .logical b => .number (.fin (if b then 1 else 0))
              | .datetime ms => .number (.fin (ms : ℚ))
              | .text s =>
                  (match jsParseFloat s with
                   | some n => .number n
                   | none => .missing)
              | v => v))
  | .toString a, rnd, row, i =>
      (match a.run rnd row i with
       | .error e => .error e
       | .ok v =>
         if v = .missing then .ok .missing
         else match v with
              | .text s => .ok (.text s)
              | v => .ok (.text (jsToString v)))
  | .toYear a, rnd, row, i =>
      dateValue "toYear" (a.run rnd row i) (fun ms => .number (.fin (getFullYear ms : ℚ)))
  | .toMonth a, rnd, row, i =>
      dateValue "toMonth" (a.run rnd row i) (fun ms => .number (.fin ((getMonth ms + 1 : ℤ) : ℚ)))
  | .toDay a, rnd, row, i =>
      dateValue "toDay" (a.run rnd row i) (fun ms => .number (.fin (getDate ms : ℚ)))
  | .toWeekday a, rnd, row, i =>
      dateValue "toWeekday" (a.run rnd row i) (fun ms => .number (.fin (getDay ms : ℚ)))
  | .toHours a, rnd, row, i =>
      dateValue "toHours" (a.run rnd row i) (fun ms => .number (.fin (getHours ms : ℚ)))
  | .toMinutes a, rnd, row, i =>
      dateValue "toMinutes" (a.run rnd row i) (fun ms => .number (.fin (getMinutes ms : ℚ)))
  | .toSeconds a, rnd, row, i =>
      dateValue "toSeconds" (a.run rnd row i) (fun ms => .number (.fin (getSeconds ms : ℚ)))
  | .add l r, rnd, row, i => arithmetic "add" (l.run rnd row i) (r.run rnd row i) jsAdd
  | .subtract l r, rnd, row, i => arithmetic "subtract" (l.run rnd row i) (r.run rnd row i) jsSub
  | .multiply l r, rnd, row, i => arithmetic "multiply" (l.run rnd row i) (r.run rnd row i) jsMul
  | .divide l r, rnd, row, i => arithmetic "divide" (l.run rnd row i) (r.run rnd row i) jsDiv
  | .remainder l r, rnd, row, i => arithmetic "remainder" (l.run rnd row i) (r.run rnd row i) jsMod
  | .power l r, rnd, row, i => arithmetic "power" (l.run rnd row i) (r.run rnd row i) jsPow
  | .equal l r, rnd, row, i =>
      comparison "equal" (l.run rnd row i) (r.run rnd row i) (fun a b => utilEqual a b)
  | .notEqual l r, rnd, row, i =>
      comparison "notEqual" (l.run rnd row i) (r.run rnd row i) (fun a b => !utilEqual a b)
  | .greater l r, rnd, row, i =>
      comparison "greater" (l.run rnd row i) (r.run rnd row i) jsGT
  | .greaterEqual l r, rnd, row, i =>
      comparison "greaterEqual" (l.run rnd row i) (r.run rnd row i) jsGE
  | .less l r, rnd, row, i =>
      comparison "less" (l.run rnd row i) (r.run rnd row i) jsLT
  | .lessEqual l r, rnd, row, i =>
      comparison "lessEqual" (l.run rnd row i) (r.run rnd row i) jsLE
  | .and l r, rnd, row, i =>
      (match l.run rnd row i with
       | .error e => .error e
       | .ok lv => if truthy lv then r.run rnd row i else .ok lv)
  | .or l r, rnd, row, i =>
      (match l.run rnd row i with
       | .error e => .error e
       | .ok lv => if truthy lv then .ok lv else r.run rnd row i)
  | .ifElse c m e, rnd, row, i =>
      (match c.run rnd row i with
       | .error err => .error err
       | .ok cv =>
         if cv = .missing then .ok .missing
         else if truthy cv then m.run rnd row i else e.run rnd row i)

/-- JSON values produced by toJSON: the nested-array serialization
format, whose leaves are the literal scalars an expression can store. -/
inductive JValue where
  | str (s : String)
  | num (n : JSNum)
  | bool (b : Bool)
  | date (ms : ℤ)
  | undef
  | arr (xs : List JValue)

/-- The JSON leaf encoding of a stored literal value. -/
def jsonOfValue : Value → JValue
  | .missing => .undef
  | .number n => .num n
  | .text s => .str s
  | .logical b => .bool b
  | .datetime ms => .date ms

/-- ExprUnary.toJSON given the serialized child. -/
def unaryJSON (kind : String) (j : Except String JValue) : Except String JValue :=
  match j with
  | .error e => .error e
  | .ok x => .ok (.arr [.str Expr.KIND, .str kind, x])

/-- ExprBinary.toJSON given the serialized children. -/
def binaryJSON (kind : String) (jl jr : Except String JValue) : Except String JValue :=
  match jl with
  | .error e => .error e
  | .ok xl =>
    match jr with
    | .error e => .error e
    | .ok xr => .ok (.arr [.str Expr.KIND, .str kind, xl, xr])

/-- ExprTernaryBase.toJSON given the serialized children. -/
def ternaryJSON (kind : String) (jl jm jr : Except String JValue) : Except String JValue :=
  match jl with
  | .error e => .error e
  | .ok xl =>
    match jm with
    | .error e => .error e
    | .ok xm =>
      match jr with
      | .error e => .error e
      | .ok xr => .ok (.arr [.str Expr.KIND, .str kind, xl, xm, xr])

/-- Serialization: the toJSON method of every node class.  ExprRowNum's
toJSON (line 229 of expr.js) reads the identifier ExprKIND, which is not
defined anywhere in the module, so calling it throws a ReferenceError;
every other class uses Expr.KIND. -/
def Expr.toJSON : Expr → Except String JValue
  | .column name => .ok (.arr [.str Expr.KIND, .str "column", jsonOfValue (.text name)])
  | .datetime v => .ok (.arr [.str Expr.KIND, .str "datetime", jsonOfValue (litDatetime v)])
  | .logical v => .ok (.arr [.str Expr.KIND, .str "logical", jsonOfValue (litLogical v)])
  | .number v => .ok (.arr [.str Expr.KIND, .str "number", jsonOfValue (litNumber v)])
  | .text v => .ok (.arr [.str Expr.KIND, .str "text", jsonOfValue (litText v)])
  | .rownum => .error "ReferenceError: ExprKIND is not defined"
  | .exponential rate => .ok (.arr [.str Expr.KIND, .str "exponential", .num rate])
  | .normal m s => .ok (.arr [.str Expr.KIND, .str "normal", .num m, .num s])
  | .uniform lo hi => .ok (.arr [.str Expr.KIND, .str "uniform", .num lo, .num hi])
  | .negate a => unaryJSON "negate" a.toJSON
  | .not a => unaryJSON "not" a.toJSON
  | .isLogical a => unaryJSON "isLogical" a.toJSON
  | .isDatetime a => unaryJSON "isDatetime" a.toJSON
  | .isMissing a => unaryJSON "isMissing" a.toJSON
  | .isNumber a => unaryJSON "isNumber" a.toJSON
  | .isText a => unaryJSON "isText" a.toJSON
  | .toLogical a => unaryJSON "toLogical" a.toJSON
  | .toDatetime a => unaryJSON "toDatetime" a.toJSON
  | .toNumber a => unaryJSON "toNumber" a.toJSON
  | .toString a => unaryJSON "toString" a.toJSON
  | .toYear a => unaryJSON "toYear" a.toJSON
  | .toMonth a => unaryJSON "toMonth" a.toJSON
  | .toDay a => unaryJSON "toDay" a.toJSON
  | .toWeekday a => unaryJSON "toWeekday" a.toJSON
  | .toHours a => unaryJSON "toHours" a.toJSON
  | .toMinutes a => unaryJSON "toMinutes" a.toJSON
  | .toSeconds a => unaryJSON "toSeconds" a.toJSON
  | .add l r => binaryJSON "add" l.toJSON r.toJSON
  | .subtract l r => binaryJSON "subtract" l.toJSON r.toJSON
  | .multiply l r => binaryJSON "multiply" l.toJSON r.toJSON
  | .divide l r => binaryJSON "divide" l.toJSON r.toJSON
  | .remainder l r => binaryJSON "remainder" l.toJSON r.toJSON
  | .power l r => binaryJSON "power" l.toJSON r.toJSON
  | .equal l r => binaryJSON "equal" l.toJSON r.toJSON
  | .notEqual l r => binaryJSON "notEqual" l.toJSON r.toJSON
  | .greater l r => binaryJSON "greater" l.toJSON r.toJSON
  | .greaterEqual l r => binaryJSON "greaterEqual" l.toJSON r.toJSON
  | .less l r => binaryJSON "less" l.toJSON r.toJSON
  | .lessEqual l r => binaryJSON "lessEqual" l.toJSON r.toJSON
  | .and l r => binaryJSON "and" l.toJSON r.toJSON
  | .or l r => binaryJSON "or" l.toJSON r.toJSON
  | .ifElse c m e => ternaryJSON "ifElse" c.toJSON m.toJSON e.toJSON

/-- Structural equality: the equal method of every node class.
Two slips in the source are reproduced faithfully: ExprExponential.equal
(line 248) only tests the other node's class and ignores the rate, and
ExprUniform.equal (line 298) tests other instanceof ExprNormal, so it
reads other.low and other.high on an ExprNormal, which are undefined and
never strictly equal to this node's numbers - a uniform node therefore
equals nothing, not even itself. -/
def exprEqual : Expr → Expr → Bool
  | .column a, .column b => decide (a = b)
  | .datetime a, .datetime b => utilEqual (litDatetime a) (litDatetime b)
  | .logical a, .logical b => utilEqual (litLogical a) (litLogical b)
  | .number a, .number b => utilEqual (litNumber a) (litNumber b)
  | .text a, .text b => utilEqual (litText a) (litText b)
  | .rownum, .rownum => true
  | .exponential _, .exponential _ => true
  | .normal m s, .normal m2 s2 => jsNumEq m m2 && jsNumEq s s2
  | .uniform _ _, _ => false
  | .negate a, .negate b => exprEqual a b
  | .not a, .not b => exprEqual a b
  | .isLogical a, .isLogical b => exprEqual a b
  | .isDatetime a, .isDatetime b => exprEqual a b
  | .isMissing a, .isMissing b => exprEqual a b
  | .isNumber a, .isNumber b => exprEqual a b
  | .isText a, .isText b => exprEqual a b
  | .toLogical a, .toLogical b => exprEqual a b
  | .toDatetime a, .toDatetime b => exprEqual a b
  | .toNumber a, .toNumber b => exprEqual a b
  | .toString a, .toString b => exprEqual a b
  | .toYear a, .toYear b => exprEqual a b
  | .toMonth a, .toMonth b => exprEqual a b
  | .toDay a, .toDay b => exprEqual a b
  | .toWeekday a, .toWeekday b => exprEqual a b
  | .toHours a, .toHours b => exprEqual a b
  | .toMinutes a, .toMinutes b => exprEqual a b
  | .toSeconds a, .toSeconds b => exprEqual a b
  | .add l r, .add l2 r2 => exprEqual l l2 && exprEqual r r2
  | .subtract l r, .subtract l2 r2 => exprEqual l l2 && exprEqual r r2
  | .multiply l r, .multiply l2 r2 => exprEqual l l2 && exprEqual r r2
  | .divide l r, .divide l2 r2 => exprEqual l l2 && exprEqual r r2
  | .remainder l r, .remainder l2 r2 => exprEqual l l2 && exprEqual r r2
  | .power l r, .power l2 r2 => exprEqual l l2 && exprEqual r r2
  | .equal l r, .equal l2 r2 => exprEqual l l2 && exprEqual r r2
  | .notEqual l r, .notEqual l2 r2 => exprEqual l l2 && exprEqual r r2
  | .greater l r, .greater l2 r2 => exprEqual l l2 && exprEqual r r2
  | .greaterEqual l r, .greaterEqual l2 r2 => exprEqual l l2 && exprEqual r r2
  | .less l r, .less l2 r2 => exprEqual l l2 && exprEqual r r2
  | .lessEqual l r, .lessEqual l2 r2 => exprEqual l l2 && exprEqual r r2
  | .and l r, .and l2 r2 => exprEqual l l2 && exprEqual r r2
  | .or l r, .or l2 r2 => exprEqual l l2 && exprEqual r r2
  | .ifElse c m e, .ifElse c2 m2 e2 => exprEqual c c2 && exprEqual m m2 && exprEqual e e2
  | _, _ => false

/-- The six binary arithmetic node kinds. -/
inductive ArithKind where
  | add
  | subtract
  | multiply
  | divide
  | remainder
  | power
deriving DecidableEq

/-- The kind string of each arithmetic node class. -/
def ArithKind.name : ArithKind → String
  | .add => "add"
  | .subtract => "subtract"
  | .multiply => "multiply"
  | .divide => "divide"
  | .remainder => "remainder"
  | .power => "power"

/-- The operator each arithmetic node class passes to arithmetic. -/
def ArithKind.func : ArithKind → JSNum → JSNum → JSNum
  | .add => jsAdd
  | .subtract => jsSub
  | .multiply => jsMul
  | .divide => jsDiv
  | .remainder => jsMod
  | .power => jsPow

/-- The AST constructor of each arithmetic node kind. -/
def mkArith : ArithKind → Expr → Expr → Expr
  | .add => .add
  | .subtract => .subtract
  | .multiply => .multiply
  | .divide => .divide
  | .remainder => .remainder
  | .power => .power

/-- The six binary comparison node kinds. -/
inductive CompareKind where
  | equal
  | notEqual
  | greater
  | greaterEqual
  | less
  | lessEqual
deriving DecidableEq

/-- The kind string of each comparison node class. -/
def CompareKind.name : CompareKind → String
  | .equal => "equal"
  | .notEqual => "notEqual"
  | .greater => "greater"
  | .greaterEqual => "greaterEqual"
  | .less => "less"
  | .lessEqual => "lessEqual"

/-- The predicate each comparison node class passes to comparison. -/
def CompareKind.func : CompareKind → Value → Value → Bool
  | .equal => fun a b => utilEqual a b
  | .notEqual => fun a b => !utilEqual a b
  | .greater => jsGT
  | .greaterEqual => jsGE
  | .less => jsLT
  | .lessEqual => jsLE

/-- The AST constructor of each comparison node kind. -/
def mkCompare : CompareKind → Expr → Expr → Expr
  | .equal => .equal
  | .notEqual => .notEqual
  | .greater => .greater
  | .greaterEqual => .greaterEqual
  | .less => .less
  | .lessEqual => .lessEqual

/-- The seven datetime field-extraction node kinds. -/
inductive DatetimeKind where
  | toYear
  | toMonth
  | toDay
  | toWeekday
  | toHours
  | toMinutes
  | toSeconds
deriving DecidableEq

/-- The kind string of each datetime extractor class. -/
def DatetimeKind.name : DatetimeKind → String
  | .toYear => "toYear"
  | .toMonth => "toMonth"
  | .toDay => "toDay"
  | .toWeekday => "toWeekday"
  | .toHours => "toHours"
  | .toMinutes => "toMinutes"
  | .toSeconds => "toSeconds"

/-- The field extractor each datetime node class passes to dateValue. -/
def DatetimeKind.func : DatetimeKind → ℤ → Value
  | .toYear => fun ms => .number (.fin (getFullYear ms : ℚ))
  | .toMonth => fun ms => .number (.fin ((getMonth ms + 1 : ℤ) : ℚ))
  | .toDay => fun ms => .number (.fin (getDate ms : ℚ))
  | .toWeekday => fun ms => .number (.fin (getDay ms : ℚ))
  | .toHours => fun ms => .number (.fin (getHours ms : ℚ))
  | .toMinutes => fun ms => .number (.fin (getMinutes ms : ℚ))
  | .toSeconds => fun ms => .number (.fin (getSeconds ms : ℚ))

/-- The AST constructor of each datetime extractor kind. -/
def mkDatetime : DatetimeKind → Expr → Expr
  | .toYear => .toYear
  | .toMonth => .toMonth
  | .toDay => .toDay
  | .toWeekday => .toWeekday
  | .toHours => .toHours
  | .toMinutes => .toMinutes
  | .toSeconds => .toSeconds

/-- Every arithmetic node runs through the shared arithmetic helper with
its own kind string and operator. -/
theorem run_mkArith (k : ArithKind) (l r : Expr) (rnd : RandomSource)
    (row : Row) (i : ℕ) :
    (mkArith k l r).run rnd row i =
      arithmetic k.name (l.run rnd row i) (r.run rnd row i) k.func := by
  cases k <;> rfl

/-- Every comparison node runs through the shared comparison helper with
its own kind string and predicate. -/
theorem run_mkCompare (k : CompareKind) (l r : Expr) (rnd : RandomSource)
    (row : Row) (i : ℕ) :
    (mkCompare k l r).run rnd row i =
      comparison k.name (l.run rnd row i) (r.run rnd row i) k.func := by
  cases k <;> rfl

/-- Every datetime extractor runs through the shared dateValue helper
with its own kind string and field function. -/
theorem run_mkDatetime (k : DatetimeKind) (a : Expr) (rnd : RandomSource)
    (row : Row) (i : ℕ) :
    (mkDatetime k a).run rnd row i =
      dateValue k.name (a.run rnd row i) k.func := by
  cases k <;> rfl

/-- The month selected by the cumulative-length chain is one of the
twelve months. -/
theorem monthFromDayOfYear_range (leap : Bool) (d : ℤ) :
    0 ≤ monthFromDayOfYear leap d ∧ monthFromDayOfYear leap d ≤ 11 := by
  unfold monthFromDayOfYear
  have h := List.length_filter_le (fun t => decide (t ≤ d)) (monthEnds leap)
  have h2 : (monthEnds leap).length = 11 := by cases leap <;> rfl
  omega

/-- The modelled getMonth always lies in 0 through 11. -/
theorem getMonth_range (ms : ℤ) : 0 ≤ getMonth ms ∧ getMonth ms ≤ 11 := by
  unfold getMonth
  exact monthFromDayOfYear_range _ _

/-- C1: the claim says serialization succeeds for every variant,
including rownum, with the fixed tag as first element; but
ExprRowNum.toJSON reads the undefined identifier ExprKIND (expr.js line
229, a slip for Expr.KIND), so serializing a rownum node throws a
ReferenceError instead of producing the tagged array. -/
theorem c1_rownum_serialization_fails :
    Expr.toJSON Expr.rownum = .error "ReferenceError: ExprKIND is not defined" := rfl

/-- C2: the claim says structural equality compares variant tag and all
children, is reflexive, and distinguishes exponential nodes with
different rates; but ExprUniform.equal tests other instanceof ExprNormal
(line 298), so a uniform node does not even equal itself, and
ExprExponential.equal ignores the rate (line 248), so exponential nodes
with different rates compare equal. -/
theorem c2_structural_equality_bugs :
    exprEqual (Expr.uniform (.fin 0) (.fin 1)) (Expr.uniform (.fin 0) (.fin 1)) = false ∧
    exprEqual (Expr.exponential (.fin 1)) (Expr.exponential (.fin 2)) = true :=
  ⟨rfl, rfl⟩

/-- C3 counterexample: the claim as stated fails: the left operand of an
add node evaluates to Missing, yet the node does not evaluate to Missing:
it throws, because the right operand evaluates to text and the numeric
operand check rejects it. -/
theorem c3_missing_propagation_counterexample :
    (Expr.number none).run dfltRnd [] 0 = .ok .missing ∧
    (Expr.text (some "a")).run dfltRnd [] 0 = .ok (.text "a") ∧
    (Expr.add (.number none) (.text (some "a"))).run dfltRnd [] 0 =
      .error "Require number for add" ∧
    (Except.error "Require number for add" : Except String Value) ≠ .ok .missing :=
  ⟨rfl, rfl, rfl, fun h => Except.noConfusion h⟩

/-- C3 (amended): for every binary arithmetic node (add, subtract,
multiply, divide, remainder, power) and every row, if both operands
evaluate to values that pass the numeric operand check (each is Missing
or a number) and at least one of them is Missing, then the node evaluates
to Missing. -/
theorem c3_missing_propagation_amended (k : ArithKind) (l r : Expr)
    (rnd : RandomSource) (row : Row) (i : ℕ) (vl vr : Value)
    (hl : l.run rnd row i = .ok vl) (hr : r.run rnd row i = .ok vr)
    (hnl : isNumOrMissing vl = true) (hnr : isNumOrMissing vr = true)
    (hm : vl = .missing ∨ vr = .missing) :
    (mkArith k l r).run rnd row i = .ok .missing := by
  rw [run_mkArith, hl, hr]
  rcases hm with h | h
  · subst h
    cases vr <;> simp_all [arithmetic, isNumOrMissing]
  · subst h
    cases vl <;> simp_all [arithmetic, isNumOrMissing]

/-- C3 witness: adding a Missing number literal to the number 2 yields
Missing. -/
theorem c3_missing_propagation_witness :
    (mkArith .add (.number none) (.number (some (.fin 2)))).run dfltRnd [] 0 = .ok .missing :=
  c3_missing_propagation_amended .add (.number none) (.number (some (.fin 2)))
    dfltRnd [] 0 .missing (.number (.fin 2)) rfl rfl rfl rfl (Or.inl rfl)

/-- C4: for every arithmetic node (the six binary kinds and unary negate)
whose operands evaluate to non-missing numbers, the node evaluates to the
safe-value filter of the IEEE result: Missing when that result is
non-finite, and the finite numeric result otherwise. -/
theorem c4_safe_value (k : ArithKind) (l r : Expr)
    (rnd : RandomSource) (row : Row) (i : ℕ) (a b : JSNum)
    (hl : l.run rnd row i = .ok (.number a)) (hr : r.run rnd row i = .ok (.number b)) :
    (mkArith k l r).run rnd row i = .ok (safeValue (k.func a b)) ∧
    safeValue (k.func a b) =
      (if (k.func a b).isFiniteNum then Value.number (k.func a b) else Value.missing) ∧
    (Expr.negate l).run rnd row i = .ok (safeValue (jsNeg a)) := by
  refine ⟨?_, rfl, ?_⟩
  · rw [run_mkArith, hl, hr]
    rfl
  · simp only [Expr.run, hl]

/-- C4 witness: dividing 1 by 0 gives IEEE Infinity, which the safe-value
filter collapses to Missing; negating 1 stays finite. -/
theorem c4_safe_value_witness :
    (mkArith .divide (.number (some (.fin 1))) (.number (some (.fin 0)))).run dfltRnd [] 0 =
      .ok .missing ∧
    jsDiv (.fin 1) (.fin 0) = .posInf ∧
    (Expr.negate (.number (some (.fin 1)))).run dfltRnd [] 0 = .ok (.number (.fin (-1))) := by
  have h := c4_safe_value .divide (.number (some (.fin 1))) (.number (some (.fin 0)))
    dfltRnd [] 0 (.fin 1) (.fin 0) rfl rfl
  exact ⟨h.1.trans rfl, rfl, h.2.2.trans rfl⟩

/-- C5: the and node returns the left value as-is, with the right operand
not evaluated, whenever the left value is falsy (Missing is falsy), and
otherwise returns the right operand's result; or is symmetric, returning
the left value as-is when truthy and the right operand's result
otherwise. -/
theorem c5_short_circuit (l r : Expr) (rnd : RandomSource) (row : Row) (i : ℕ)
    (vl : Value) (hl : l.run rnd row i = .ok vl) :
    truthy Value.missing = false ∧
    (truthy vl = false → (Expr.and l r).run rnd row i = .ok vl) ∧
    (truthy vl = true → (Expr.and l r).run rnd row i = r.run rnd row i) ∧
    (truthy vl = true → (Expr.or l r).run rnd row i = .ok vl) ∧
    (truthy vl = false → (Expr.or l r).run rnd row i = r.run rnd row i) := by
  refine ⟨rfl, ?_, ?_, ?_, ?_⟩ <;> intro h <;> simp only [Expr.run, hl, h] <;> rfl

/-- C5 witness: and with a false left operand returns false itself even
though the right operand would throw (its column is absent). -/
theorem c5_short_circuit_witness :
    (Expr.and (.logical (some false)) (.column "x")).run dfltRnd [] 0 = .ok (.logical false) ∧
    (Expr.column "x").run dfltRnd [] 0 = .error "undefined not in row" := by
  have h := c5_short_circuit (.logical (some false)) (.column "x") dfltRnd [] 0
    (.logical false) rfl
  exact ⟨h.2.1 rfl, rfl⟩

/-- C6: for every comparison node, if either operand evaluates to Missing
the node evaluates to Missing (the type requirement never fires on a
missing operand), and if both operands are non-missing with different
runtime types the node fails with the type-mismatch error. -/
theorem c6_comparison_types (k : CompareKind) (l r : Expr)
    (rnd : RandomSource) (row : Row) (i : ℕ) (vl vr : Value)
    (hl : l.run rnd row i = .ok vl) (hr : r.run rnd row i = .ok vr) :
    ((vl = .missing ∨ vr = .missing) → (mkCompare k l r).run rnd row i = .ok .missing) ∧
    (vl ≠ .missing → vr ≠ .missing → typeName vl ≠ typeName vr →
      (mkCompare k l r).run rnd row i = .error ("Require equal types for " ++ k.name)) := by
  rw [run_mkCompare, hl, hr]
  constructor
  · intro hm
    have ht : typeEqualOk vl vr = true := by
      rcases hm with h | h <;> subst h <;> simp [typeEqualOk]
    simp [comparison, ht, hm]
  · intro h1 h2 h3
    have ht : typeEqualOk vl vr = false := by
      simp [typeEqualOk, h1, h2, h3]
    simp [comparison, ht]

/-- C6 witness: comparing the number 1 with the text a fails with the
equal-types error, while comparing a Missing number with that text yields
Missing. -/
theorem c6_comparison_types_witness :
    (Expr.less (.number (some (.fin 1))) (.text (some "a"))).run dfltRnd [] 0 =
      .error "Require equal types for less" ∧
    (Expr.less (.number none) (.text (some "a"))).run dfltRnd [] 0 = .ok .missing := by
  have h1 := c6_comparison_types .less (.number (some (.fin 1))) (.text (some "a"))
    dfltRnd [] 0 (.number (.fin 1)) (.text "a") rfl rfl
  have h2 := c6_comparison_types .less (.number none) (.text (some "a"))
    dfltRnd [] 0 .missing (.text "a") rfl rfl
  exact ⟨(h1.2 (by decide) (by decide) (by decide)).trans rfl, h2.1 (Or.inl rfl)⟩

/-- C7: conversion failures are not errors: toDatetime on a non-missing
value the Date constructor cannot parse evaluates to Missing, and
toNumber on text that parseFloat cannot parse evaluates to Missing; both
complete normally with an ok result. -/
theorem c7_conversion_failures (e : Expr) (rnd : RandomSource) (row : Row) (i : ℕ)
    (v : Value) (he : e.run rnd row i = .ok v) :
    (v ≠ .missing → newDate v = none → (Expr.toDatetime e).run rnd row i = .ok .missing) ∧
    (∀ s, v = .text s → jsParseFloat s = none →
      (Expr.toNumber e).run rnd row i = .ok .missing) := by
  constructor
  · intro hv hn
    simp only [Expr.run, he]
    rw [if_neg hv, hn]
  · intro s hv hn
    subst hv
    simp only [Expr.run, he]
    rw [hn]

/-- C7 witness: converting the text abc to a datetime or a number yields
Missing with no error. -/
theorem c7_conversion_failures_witness :
    (Expr.toDatetime (.text (some "abc"))).run dfltRnd [] 0 = .ok .missing ∧
    (Expr.toNumber (.text (some "abc"))).run dfltRnd [] 0 = .ok .missing := by
  have h := c7_conversion_failures (.text (some "abc")) dfltRnd [] 0 (.text "abc") rfl
  exact ⟨h.1 (by decide) rfl, h.2 "abc" rfl rfl⟩

/-- C8: the type predicates isNumber, isText, isLogical and isDatetime
evaluate to Missing on a Missing operand, while isMissing always
evaluates to the definite boolean that is true exactly when the operand
evaluated to Missing. -/
theorem c8_type_predicates (a : Expr) (rnd : RandomSource) (row : Row) (i : ℕ)
    (v : Value) (ha : a.run rnd row i = .ok v) :
    (v = .missing →
      (Expr.isNumber a).run rnd row i = .ok .missing ∧
      (Expr.isText a).run rnd row i = .ok .missing ∧
      (Expr.isLogical a).run rnd row i = .ok .missing ∧
      (Expr.isDatetime a).run rnd row i = .ok .missing) ∧
    (Expr.isMissing a).run rnd row i = .ok (.logical (decide (v = .missing))) := by
  constructor
  · intro hv
    subst hv
    refine ⟨?_, ?_, ?_, ?_⟩ <;> simp only [Expr.run, ha, typeCheck] <;> rfl
  · simp only [Expr.run, ha]

/-- C8 witness: on a Missing operand the four type predicates yield
Missing and isMissing yields true; on the number 1 isMissing yields
false. -/
theorem c8_type_predicates_witness :
    (Expr.isNumber (.number none)).run dfltRnd [] 0 = .ok .missing ∧
    (Expr.isText (.number none)).run dfltRnd [] 0 = .ok .missing ∧
    (Expr.isLogical (.number none)).run dfltRnd [] 0 = .ok .missing ∧
    (Expr.isDatetime (.number none)).run dfltRnd [] 0 = .ok .missing ∧
    (Expr.isMissing (.number none)).run dfltRnd [] 0 = .ok (.logical true) ∧
    (Expr.isMissing (.number (some (.fin 1)))).run dfltRnd [] 0 = .ok (.logical false) := by
  have h := c8_type_predicates (.number none) dfltRnd [] 0 .missing rfl
  have h2 := c8_type_predicates (.number (some (.fin 1))) dfltRnd [] 0 (.number (.fin 1)) rfl
  obtain ⟨himp, a5⟩ := h
  obtain ⟨a1, a2, a3, a4⟩ := himp rfl
  exact ⟨a1, a2, a3, a4, a5.trans rfl, h2.2.trans rfl⟩

/-- C9: every datetime field extractor propagates a Missing operand,
fails with the require-date error on a non-missing non-Date operand, and
on a Date operand toMonth returns the 1-based month, which always lies in
1 through 12. -/
theorem c9_datetime_extractors (k : DatetimeKind) (a : Expr)
    (rnd : RandomSource) (row : Row) (i : ℕ) (v : Value)
    (ha : a.run rnd row i = .ok v) :
    (v = .missing → (mkDatetime k a).run rnd row i = .ok .missing) ∧
    (v ≠ .missing → (∀ ms, v ≠ .datetime ms) →
      (mkDatetime k a).run rnd row i = .error ("Require date for " ++ k.name)) ∧
    (∀ ms, v = .datetime ms →
      (Expr.toMonth a).run rnd row i = .ok (.number (.fin ((getMonth ms + 1 : ℤ) : ℚ))) ∧
      1 ≤ getMonth ms + 1 ∧ getMonth ms + 1 ≤ 12) := by
  refine ⟨?_, ?_, ?_⟩
  · intro hv
    subst hv
    rw [run_mkDatetime, ha]
    rfl
  · intro h1 h2
    rw [run_mkDatetime, ha]
    cases v with
    | missing => exact absurd rfl h1
    | datetime ms => exact absurd rfl (h2 ms)
    | number n => rfl
    | text s => rfl
    | logical b => rfl
  · intro ms hv
    subst hv
    have hr := getMonth_range ms
    refine ⟨?_, by omega, by omega⟩
    simp only [Expr.run, ha]
    rfl

/-- C9 witness: toMonth of the epoch instant is 1; toYear of a text
operand fails with the require-date error; toDay of a Missing operand is
Missing. -/
theorem c9_datetime_extractors_witness :
    (Expr.toMonth (.datetime (some 0))).run dfltRnd [] 0 = .ok (.number (.fin 1)) ∧
    (Expr.toYear (.text (some "x"))).run dfltRnd [] 0 = .error "Require date for toYear" ∧
    (Expr.toDay (.datetime none)).run dfltRnd [] 0 = .ok .missing := by
  have h1 := c9_datetime_extractors .toMonth (.datetime (some 0)) dfltRnd [] 0
    (.datetime 0) rfl
  have h2 := c9_datetime_extractors .toYear (.text (some "x")) dfltRnd [] 0
    (.text "x") rfl
  have h3 := c9_datetime_extractors .toDay (.datetime none) dfltRnd [] 0
    .missing rfl
  refine ⟨((h1.2.2 0 rfl).1).trans rfl, ?_, h3.1 rfl⟩
  exact (h2.2.1 (by decide) (fun ms h => Value.noConfusion h)).trans rfl

/-- C10: the ifElse node evaluates to Missing when its condition is
Missing, without evaluating either branch; on a truthy condition it is
exactly the then-branch's evaluation, and on a falsy non-missing
condition exactly the else-branch's evaluation. -/
theorem c10_if_else (c m e : Expr) (rnd : RandomSource) (row : Row) (i : ℕ)
    (cv : Value) (hc : c.run rnd row i = .ok cv) :
    (cv = .missing → (Expr.ifElse c m e).run rnd row i = .ok .missing) ∧
    (cv ≠ .missing → truthy cv = true →
      (Expr.ifElse c m e).run rnd row i = m.run rnd row i) ∧
    (cv ≠ .missing → truthy cv = false →
      (Expr.ifElse c m e).run rnd row i = e.run rnd row i) := by
  refine ⟨?_, ?_, ?_⟩
  · intro hv
    subst hv
    simp only [Expr.run, hc]
    rfl
  · intro h1 h2
    simp only [Expr.run, hc]
    rw [if_neg h1, if_pos h2]
  · intro h1 h2
    simp only [Expr.run, hc]
    rw [if_neg h1, h2]
    rfl

/-- C10 witness: an ifElse whose condition is Missing yields Missing even
though both branches would throw; with a true condition it returns the
then-branch's value. -/
theorem c10_if_else_witness :
    (Expr.ifElse (.logical none) (.column "x") (.column "x")).run dfltRnd [] 0 = .ok .missing ∧
    (Expr.ifElse (.logical (some true)) (.number (some (.fin 7))) (.column "x")).run
      dfltRnd [] 0 = .ok (.number (.fin 7)) := by
  have h1 := c10_if_else (.logical none) (.column "x") (.column "x") dfltRnd [] 0
    .missing rfl
  have h2 := c10_if_else (.logical (some true)) (.number (some (.fin 7))) (.column "x")
    dfltRnd [] 0 (.logical true) rfl
  exact ⟨h1.1 rfl, (h2.2.1 (by decide) rfl).trans rfl⟩

end TidyBlocks
